import Mathlib

/-!
Shallow embedding of the two serverless API routes of the `my-dashboard`
repository: `src/pages/api/anki.ts` (review-count proxy for AnkiConnect) and
`src/pages/api/goodreads.ts` (reading-progress proxy for Goodreads), together
with the fallback behaviour of the `ReadingProgress` component described by
the build plan.

Each route handler is a single-shot function: it optionally issues one
outbound HTTP request, inspects the outcome of that request, and returns a
JSON `Response`.  The handlers are embedded as pure functions from the
environment variables and the outcome of the outbound call to the produced
response, paired with the list of outbound requests the handler issued.
Every `throw` site of the source lies inside the handler's `try` block and is
caught by its `catch`, so the embedding maps each throw site to the catch
branch's response.

The Goodreads XML body is represented at the granularity at which the handler
consumes it: the results of its regular-expression extractions (whether the
currently-reading review block matched, and the title / num_pages captures
inside it, with `parseInt` already applied to the pages capture).
-/

namespace Dashboard

/-- JavaScript truthiness of an optional string environment value or JSON
field: `undefined`/absent and the empty string are falsy, every other string
is truthy. -/
def truthyStr : Option String → Bool
  | none => false
  | some s => !s.isEmpty

/-- The fixed JSON-RPC-style body the anki route posts to AnkiConnect:
`JSON.stringify({ action: 'getNumCardsReviewedToday', version: 6 })`. -/
structure AnkiRpcBody where
  action : String
  version : Nat
deriving DecidableEq, Repr

/-- An outbound HTTP request, at the granularity at which the routes build
one: URL, method, the Content-Type header when one is set, and the JSON body
when one is sent. -/
structure OutboundRequest where
  url : String
  method : String
  contentType : Option String
  jsonBody : Option AnkiRpcBody
deriving DecidableEq, Repr

/-- A JSON `Response` produced by a route: HTTP status, the two headers the
routes set, and the JSON body (of the route's body type). -/
structure HttpJsonResponse (β : Type) where
  status : Nat
  contentType : String
  cacheControl : String
  body : β
deriving DecidableEq, Repr

/-! ## The anki route (`src/pages/api/anki.ts`) -/

/-- The JSON body of the remote AnkiConnect reply, as the handler reads it:
the `error` field (`some e` models a present string value, truthiness decided
by `truthyStr`) and the numeric `result` field when present. -/
structure AnkiRemoteReply where
  error : Option String
  result : Option Nat
deriving DecidableEq, Repr

/-- Outcome of the single `fetch` to AnkiConnect: the promise rejects with an
error message (network failure), or a response arrives with its `ok` flag and
its JSON body; `Except.error` models `response.json()` itself rejecting
(unparseable body) with the parser's message. -/
inductive AnkiFetchOutcome where
  | networkError (msg : String)
  | response (ok : Bool) (json : Except String AnkiRemoteReply)
deriving Repr

/-- The `AnkiResponse` interface of the source: the JSON body the route
returns. -/
structure AnkiResponse where
  today : Nat
  error : Bool
  message : Option String
deriving DecidableEq, Repr

/-- Cache-Control header of the anki route's success response. -/
def ankiSuccessCacheControl : String := "public, s-maxage=300, stale-while-revalidate=600"

/-- Cache-Control header of the anki route's catch-branch response. -/
def ankiFailureCacheControl : String := "public, s-maxage=60, stale-while-revalidate=300"

/-- The response built in the anki route's `catch` branch: `{ today: 0,
error: true, message }` with status 200 and the shorter cache header.  All
values thrown inside the `try` are `Error` instances, so `message` is the
thrown error's message. -/
def ankiFailureResponse (msg : String) : HttpJsonResponse AnkiResponse :=
  { status := 200
    contentType := "application/json"
    cacheControl := ankiFailureCacheControl
    body := { today := 0, error := true, message := some msg } }

/-- The outbound request the anki route sends: a POST to
`ANKI_CONNECT_HOST || 'http://localhost:8765'` with Content-Type
`application/json` and the fixed `{ action, version }` body. -/
def ankiRequest (ankiConnectHost : Option String) : OutboundRequest :=
  { url := if truthyStr ankiConnectHost then ankiConnectHost.getD "" else "http://localhost:8765"
    method := "POST"
    contentType := some "application/json"
    jsonBody := some { action := "getNumCardsReviewedToday", version := 6 } }

/-- Result of one invocation of a route handler: the outbound requests it
issued (in order) and the `Response` it returned. -/
structure RouteRun (β : Type) where
  requests : List OutboundRequest
  response : HttpJsonResponse β
deriving DecidableEq, Repr

namespace Anki

/-- The `GET` handler of `src/pages/api/anki.ts`, as a function of the
`ANKI_CONNECT_HOST` environment variable and the outcome of its single
`fetch`.  The fetch is issued unconditionally; a rejected fetch, a non-ok
status, an unparseable body, and a truthy `error` field in the reply all
throw into the `catch` branch. -/
def GET (ankiConnectHost : Option String) (o : AnkiFetchOutcome) :
    RouteRun AnkiResponse :=
  { requests := [ankiRequest ankiConnectHost]
    response :=
      match o with
      | .networkError msg => ankiFailureResponse msg
      | .response ok json =>
        if !ok then
          ankiFailureResponse "AnkiConnect is offline or unreachable"
        else
          match json with
          | .error parseMsg => ankiFailureResponse parseMsg
          | .ok data =>
            if truthyStr data.error then
              ankiFailureResponse (data.error.getD "")
            else
              { status := 200
                contentType := "application/json"
                cacheControl := ankiSuccessCacheControl
                body := { today := data.result.getD 0, error := false, message := none } } }

end Anki

/-- The failure causes of the anki route's remote call named by the spec: the
fetch rejects (network error), the response status is not ok, or the reply
carries a (truthy) `error` field. -/
def ankiCallFails (o : AnkiFetchOutcome) : Prop :=
  (∃ msg, o = .networkError msg) ∨
  (∃ json, o = .response false json) ∨
  (∃ data, o = .response true (.ok data) ∧ truthyStr data.error = true)

/-! ## The goodreads route (`src/pages/api/goodreads.ts`) -/

/-- The `Book` interface of the source. -/
structure Book where
  title : String
  progress : Int
  pages : Int
  current : Bool
deriving DecidableEq, Repr

/-- The JSON body the goodreads route returns. -/
structure GoodreadsResponse where
  error : Bool
  book : Option Book
  message : Option String
deriving DecidableEq, Repr

/-- The captures the handler extracts from the matched currently-reading
review block: the CDATA title capture when the title regex matched, and the
`parseInt` of the num_pages capture when that regex matched. -/
structure ReviewMatch where
  titleMatch : Option String
  pagesMatch : Option Int
deriving DecidableEq, Repr

/-- The response body text, at the granularity at which the handler consumes
it: whether the currently-reading shelf regex matched, and if so the captures
inside the matched block. -/
structure XmlView where
  currentlyReadingMatch : Option ReviewMatch
deriving DecidableEq, Repr

/-- Outcome of the single `fetch` to the Goodreads review-list URL: the
promise rejects with an error message, or a response arrives with its `ok`
flag, its numeric status (used in the thrown error's message), and its body
text. -/
inductive GoodreadsFetchOutcome where
  | networkError (msg : String)
  | response (ok : Bool) (status : Nat) (xml : XmlView)
deriving DecidableEq, Repr

/-- Cache-Control header the goodreads route sends on every path except its
`catch` branch (missing credentials, no-current-book, and success). -/
def goodreadsLongCacheControl : String := "public, s-maxage=600, stale-while-revalidate=1800"

/-- Cache-Control header of the goodreads route's catch-branch response. -/
def goodreadsShortCacheControl : String := "public, s-maxage=60, stale-while-revalidate=300"

/-- The response built in the goodreads route's `catch` branch:
`{ error: true, message, book: null }` with status 200 and the shorter cache
header. -/
def goodreadsCatchResponse (msg : String) : HttpJsonResponse GoodreadsResponse :=
  { status := 200
    contentType := "application/json"
    cacheControl := goodreadsShortCacheControl
    body := { error := true, book := none, message := some msg } }

/-- The outbound request the goodreads route sends: an OAuth-signed GET to
the review-list URL for the configured user id (the Authorization header is
abstracted away; no Content-Type header and no body are set). -/
def goodreadsRequest (userId : String) : OutboundRequest :=
  { url := "https://www.goodreads.com/review/list/" ++ userId ++ ".xml"
    method := "GET"
    contentType := none
    jsonBody := none }

namespace Goodreads

/-- The `GET` handler of `src/pages/api/goodreads.ts`, as a function of the
three Goodreads environment variables and the outcome of its single `fetch`.
Missing (falsy) credentials return the configured-credentials error response
before any request is issued; otherwise one request is sent, a rejected fetch
or non-ok status throws into the `catch` branch, a body with no
currently-reading match yields the no-active-book response, and a matched
block yields a book with title and pages from the captures (with defaults)
and `progress` fixed at 0. -/
def GET (key secret userId : Option String) (o : GoodreadsFetchOutcome) :
    RouteRun GoodreadsResponse :=
  if !truthyStr key || !truthyStr secret || !truthyStr userId then
    { requests := []
      response :=
        { status := 200
          contentType := "application/json"
          cacheControl := goodreadsLongCacheControl
          body := { error := true, book := none,
                    message := some "Goodreads credentials not configured" } } }
  else
    { requests := [goodreadsRequest (userId.getD "")]
      response :=
        match o with
        | .networkError msg => goodreadsCatchResponse msg
        | .response ok status xml =>
          if !ok then
            goodreadsCatchResponse ("Goodreads API error: " ++ Nat.repr status)
          else
            match xml.currentlyReadingMatch with
            | none =>
              { status := 200
                contentType := "application/json"
                cacheControl := goodreadsLongCacheControl
                body := { error := false, book := none,
                          message := some "No currently reading book" } }
            | some m =>
              { status := 200
                contentType := "application/json"
                cacheControl := goodreadsLongCacheControl
                body := { error := false
                          book := some { title := m.titleMatch.getD "Unknown Book"
                                         progress := 0
                                         pages := m.pagesMatch.getD 0
                                         current := true }
                          message := none } } }

end Goodreads

/-- The failure causes of the goodreads remote lookup named by the spec:
missing credentials, a rejected fetch (network error), or a non-success
status. -/
def goodreadsLookupFails (key secret userId : Option String)
    (o : GoodreadsFetchOutcome) : Prop :=
  (truthyStr key = false ∨ truthyStr secret = false ∨ truthyStr userId = false) ∨
  (∃ msg, o = .networkError msg) ∨
  (∃ status xml, o = .response false status xml)

/-- The catch branch of the goodreads route is reached exactly when the fetch
rejected or returned a non-ok status. -/
def goodreadsCatchPath : GoodreadsFetchOutcome → Bool
  | .networkError _ => true
  | .response ok _ _ => !ok

/-! ## The ReadingProgress component's fallback (spec-modelled) -/

/-- The data-source label the component shows. -/
inductive ReadingSource where
  | goodreads
  | koboCached
deriving DecidableEq, Repr

/-- What the component renders: the book it displays (if any) and which
source answered. -/
structure ReadingProgressView where
  book : Option Book
  source : ReadingSource
deriving DecidableEq, Repr

/-- Modelled from the spec: `src/components/ReadingProgress.astro` is not
under `src/`; only the build plan describes it ("Fetch from /api/goodreads
first; fallback to kobo.json import on failure; show data source label
('Goodreads' or 'Kobo (cached)')") and spec section 4.1 gives its contract
("attempt a remote lookup; on any failure ... fall back to a static local
record; expose which source answered").  When the route reports failure the
component displays the `kobo.json` record marked `current` with the Kobo
label; otherwise it displays the route's book with the Goodreads label. -/
def readingProgress (routeBody : GoodreadsResponse) (kobo : List Book) :
    ReadingProgressView :=
  if routeBody.error then
    { book := kobo.find? (fun b => b.current), source := .koboCached }
  else
    { book := routeBody.book, source := .goodreads }

/-! ## Theorems -/

/-- C1: whenever the anki route's call to AnkiConnect fails (network error,
non-ok HTTP status, or a truthy `error` field in the remote reply), the route
returns an HTTP 200 response whose JSON body has `today = 0` and
`error = true`. -/
theorem anki_failure_is_soft (host : Option String) (o : AnkiFetchOutcome)
    (h : ankiCallFails o) :
    (Anki.GET host o).response.status = 200 ∧
    (Anki.GET host o).response.body.today = 0 ∧
    (Anki.GET host o).response.body.error = true := by
  obtain (⟨msg, rfl⟩ | ⟨json, rfl⟩ | ⟨data, rfl, hd⟩) := h <;>
    simp [Anki.GET, ankiFailureResponse, *]

/-- Witness for C1 at a concrete failing outcome (a rejected fetch). -/
theorem anki_failure_is_soft_witness :
    ankiCallFails (.networkError "fetch failed") ∧
    ((Anki.GET none (.networkError "fetch failed")).response.status = 200 ∧
     (Anki.GET none (.networkError "fetch failed")).response.body.today = 0 ∧
     (Anki.GET none (.networkError "fetch failed")).response.body.error = true) :=
  ⟨Or.inl ⟨"fetch failed", rfl⟩,
   anki_failure_is_soft none _ (Or.inl ⟨"fetch failed", rfl⟩)⟩

/-- C2: whenever the remote Goodreads lookup fails (missing credentials,
rejected fetch, or non-success status), the reading-progress view is the
static local fallback record marked `current`, labelled with the Kobo
source.  The `ReadingProgress` component is modelled from the spec (see
`readingProgress`); the route itself is embedded from the source. -/
theorem readingProgress_falls_back (key secret userId : Option String)
    (o : GoodreadsFetchOutcome) (kobo : List Book) (b : Book)
    (hfail : goodreadsLookupFails key secret userId o)
    (hb : kobo.find? (fun x => x.current) = some b) :
    readingProgress (Goodreads.GET key secret userId o).response.body kobo =
      { book := some b, source := .koboCached } := by
  have herr : (Goodreads.GET key secret userId o).response.body.error = true := by
    by_cases hc : (!truthyStr key || !truthyStr secret || !truthyStr userId) = true
    · simp [Goodreads.GET, hc]
    · simp only [Bool.not_eq_true] at hc
      obtain (hm | ⟨msg, rfl⟩ | ⟨status, xml, rfl⟩) := hfail
      · exfalso
        rcases hm with h | h | h <;> simp_all
      · simp [Goodreads.GET, hc, goodreadsCatchResponse]
      · simp [Goodreads.GET, hc, goodreadsCatchResponse]
  simp [readingProgress, herr, hb]

/-- Witness for C2 at a concrete failing lookup (network error with
credentials present) and a one-element fallback file. -/
theorem readingProgress_falls_back_witness :
    goodreadsLookupFails (some "k") (some "s") (some "1") (.networkError "down") ∧
    [({ title := "Example Book", progress := 40, pages := 300, current := true } : Book)].find?
        (fun x => x.current) =
      some { title := "Example Book", progress := 40, pages := 300, current := true } ∧
    readingProgress
        (Goodreads.GET (some "k") (some "s") (some "1") (.networkError "down")).response.body
        [{ title := "Example Book", progress := 40, pages := 300, current := true }] =
      { book := some { title := "Example Book", progress := 40, pages := 300, current := true },
        source := .koboCached } :=
  ⟨Or.inr (Or.inl ⟨"down", rfl⟩), rfl,
   readingProgress_falls_back (some "k") (some "s") (some "1") _ _ _
     (Or.inr (Or.inl ⟨"down", rfl⟩)) rfl⟩

/-- C3: when the remote call succeeds (credentials present, ok status) but
the body contains no currently-reading match, the goodreads route returns
the explicit no-active-book body `{error: false, book: null}` with status
200, distinct (via the `error` flag) from every failure response. -/
theorem goodreads_no_active_book (key secret userId : Option String)
    (status : Nat) (xml : XmlView)
    (hk : truthyStr key = true) (hs : truthyStr secret = true)
    (hu : truthyStr userId = true)
    (hm : xml.currentlyReadingMatch = none) :
    (Goodreads.GET key secret userId (.response true status xml)).response.body =
      { error := false, book := none, message := some "No currently reading book" } ∧
    (Goodreads.GET key secret userId (.response true status xml)).response.status = 200 := by
  constructor <;> simp [Goodreads.GET, hk, hs, hu, hm]

/-- Witness for C3 at concrete credentials and a body without a
currently-reading match. -/
theorem goodreads_no_active_book_witness :
    truthyStr (some "k") = true ∧ truthyStr (some "s") = true ∧
    truthyStr (some "1") = true ∧
    (XmlView.mk none).currentlyReadingMatch = none ∧
    ((Goodreads.GET (some "k") (some "s") (some "1")
        (.response true 200 (XmlView.mk none))).response.body =
      { error := false, book := none, message := some "No currently reading book" } ∧
     (Goodreads.GET (some "k") (some "s") (some "1")
        (.response true 200 (XmlView.mk none))).response.status = 200) :=
  ⟨rfl, rfl, rfl, rfl,
   goodreads_no_active_book (some "k") (some "s") (some "1") 200 (XmlView.mk none)
     rfl rfl rfl rfl⟩

/-- C4: every book the goodreads route returns comes from the remote branch,
whose `progress` field is the fixed placeholder 0. -/
theorem goodreads_book_progress_zero (key secret userId : Option String)
    (o : GoodreadsFetchOutcome) (b : Book)
    (hb : (Goodreads.GET key secret userId o).response.body.book = some b) :
    b.progress = 0 := by
  by_cases hc : (!truthyStr key || !truthyStr secret || !truthyStr userId) = true
  · simp [Goodreads.GET, hc] at hb
  · simp only [Bool.not_eq_true] at hc
    cases o with
    | networkError msg =>
      simp [Goodreads.GET, hc, goodreadsCatchResponse] at hb
    | response ok status xml =>
      cases ok with
      | false => simp [Goodreads.GET, hc, goodreadsCatchResponse] at hb
      | true =>
        cases hx : xml.currentlyReadingMatch with
        | none => simp [Goodreads.GET, hc, hx] at hb
        | some m =>
          simp [Goodreads.GET, hc, hx] at hb
          simp [← hb]

/-- Witness for C4 at a concrete successful lookup returning a book. -/
theorem goodreads_book_progress_zero_witness :
    (Goodreads.GET (some "k") (some "s") (some "1")
        (.response true 200 (XmlView.mk (some { titleMatch := some "Dune", pagesMatch := some 412 })))).response.body.book =
      some { title := "Dune", progress := 0, pages := 412, current := true } ∧
    ({ title := "Dune", progress := 0, pages := 412, current := true } : Book).progress = 0 :=
  ⟨rfl,
   goodreads_book_progress_zero (some "k") (some "s") (some "1")
     (.response true 200 (XmlView.mk (some { titleMatch := some "Dune", pagesMatch := some 412 })))
     _ rfl⟩

/-- C5: both route handlers are total functions of the fetch outcome (no
uncaught throw in the embedding) and return HTTP status 200 on every path. -/
theorem routes_always_return_200 :
    (∀ (host : Option String) (o : AnkiFetchOutcome),
      (Anki.GET host o).response.status = 200) ∧
    (∀ (key secret userId : Option String) (o : GoodreadsFetchOutcome),
      (Goodreads.GET key secret userId o).response.status = 200) := by
  constructor
  · intro host o
    cases o with
    | networkError msg => rfl
    | response ok json =>
      cases ok with
      | false => cases json <;> rfl
      | true =>
        cases json with
        | error e => rfl
        | ok data =>
          by_cases hd : truthyStr data.error = true <;>
            simp [Anki.GET, ankiFailureResponse, hd]
  · intro key secret userId o
    by_cases hc : (!truthyStr key || !truthyStr secret || !truthyStr userId) = true
    · simp [Goodreads.GET, hc]
    · simp only [Bool.not_eq_true] at hc
      cases o with
      | networkError msg => simp [Goodreads.GET, hc, goodreadsCatchResponse]
      | response ok status xml =>
        cases ok with
        | false => simp [Goodreads.GET, hc, goodreadsCatchResponse]
        | true =>
          cases hx : xml.currentlyReadingMatch <;> simp [Goodreads.GET, hc, hx]

/-- C6 counterexample: the anki route's Cache-Control value differs between a
successful invocation and a failing one, refuting the claim that every
response of a route carries the same fixed Cache-Control value. -/
theorem cacheControl_differs_by_outcome :
    (Anki.GET none (.response true (.ok { error := none, result := some 5 }))).response.cacheControl ≠
    (Anki.GET none (.networkError "down")).response.cacheControl := by
  decide

/-- C6 amended: each route uses fixed hard-coded Cache-Control values, but
chosen per path rather than one per route: the anki route sends its
longer-lived value on success and its shorter one on failure, and the
goodreads route sends its shorter value exactly on its catch path (rejected
fetch or non-ok status, with credentials present) and its longer-lived value
everywhere else. -/
theorem cacheControl_fixed_per_path :
    (∀ (host : Option String) (o : AnkiFetchOutcome),
      (Anki.GET host o).response.cacheControl =
        if (Anki.GET host o).response.body.error then ankiFailureCacheControl
        else ankiSuccessCacheControl) ∧
    (∀ (key secret userId : Option String) (o : GoodreadsFetchOutcome),
      (Goodreads.GET key secret userId o).response.cacheControl =
        if (!truthyStr key || !truthyStr secret || !truthyStr userId) then
          goodreadsLongCacheControl
        else if goodreadsCatchPath o then goodreadsShortCacheControl
        else goodreadsLongCacheControl) := by
  constructor
  · intro host o
    cases o with
    | networkError msg => rfl
    | response ok json =>
      cases ok with
      | false => cases json <;> rfl
      | true =>
        cases json with
        | error e => rfl
        | ok data =>
          by_cases hd : truthyStr data.error = true <;>
            simp [Anki.GET, ankiFailureResponse, hd]
  · intro key secret userId o
    by_cases hc : (!truthyStr key || !truthyStr secret || !truthyStr userId) = true
    · simp [Goodreads.GET, hc]
    · simp only [Bool.not_eq_true] at hc
      cases o with
      | networkError msg =>
        simp [Goodreads.GET, goodreadsCatchPath, hc, goodreadsCatchResponse]
      | response ok status xml =>
        cases ok with
        | false => simp [Goodreads.GET, goodreadsCatchPath, hc, goodreadsCatchResponse]
        | true =>
          cases hx : xml.currentlyReadingMatch <;>
            simp [Goodreads.GET, goodreadsCatchPath, hc, hx]

/-- C7: on every invocation the anki route issues exactly one outbound
request, a POST to the configured AnkiConnect host with Content-Type
`application/json` and the fixed body
`{action: "getNumCardsReviewedToday", version: 6}`. -/
theorem anki_outbound_request_fixed (host : Option String) (o : AnkiFetchOutcome) :
    (Anki.GET host o).requests = [ankiRequest host] ∧
    (ankiRequest host).method = "POST" ∧
    (ankiRequest host).contentType = some "application/json" ∧
    (ankiRequest host).jsonBody = some { action := "getNumCardsReviewedToday", version := 6 } :=
  ⟨rfl, rfl, rfl, rfl⟩

/-- C8: neither route ever issues more than one outbound request, on any
outcome, failing ones included. -/
theorem routes_at_most_one_request :
    (∀ (host : Option String) (o : AnkiFetchOutcome),
      (Anki.GET host o).requests.length ≤ 1) ∧
    (∀ (key secret userId : Option String) (o : GoodreadsFetchOutcome),
      (Goodreads.GET key secret userId o).requests.length ≤ 1) := by
  constructor
  · intro host o
    exact Nat.le_refl 1
  · intro key secret userId o
    by_cases hc : (!truthyStr key || !truthyStr secret || !truthyStr userId) = true <;>
      simp [Goodreads.GET, hc]

/-- C9: when the remote AnkiConnect call succeeds (ok status, parsed body,
no truthy error field), the anki route's body has `error = false` and
`today` equal to the remote `result` field under JavaScript `|| 0`
defaulting, so a missing or zero result yields `{today: 0, error: false}`. -/
theorem anki_success_today (host : Option String) (data : AnkiRemoteReply)
    (hd : truthyStr data.error = false) :
    (Anki.GET host (.response true (.ok data))).response.body =
      { today := data.result.getD 0, error := false, message := none } := by
  simp [Anki.GET, hd]

/-- Witness for C9 at a concrete successful reply whose result is 0. -/
theorem anki_success_today_witness :
    truthyStr ({ error := none, result := some 0 } : AnkiRemoteReply).error = false ∧
    (Anki.GET none (.response true (.ok { error := none, result := some 0 }))).response.body =
      { today := 0, error := false, message := none } :=
  ⟨rfl, anki_success_today none { error := none, result := some 0 } rfl⟩

/-- C10: when any of the three Goodreads credentials is falsy, the route
returns `{error: true, book: null}` with status 200 and issues no outbound
request at all. -/
theorem goodreads_missing_credentials (key secret userId : Option String)
    (o : GoodreadsFetchOutcome)
    (h : truthyStr key = false ∨ truthyStr secret = false ∨ truthyStr userId = false) :
    (Goodreads.GET key secret userId o).requests = [] ∧
    (Goodreads.GET key secret userId o).response.status = 200 ∧
    (Goodreads.GET key secret userId o).response.body.error = true ∧
    (Goodreads.GET key secret userId o).response.body.book = none := by
  have hc : (!truthyStr key || !truthyStr secret || !truthyStr userId) = true := by
    rcases h with h | h | h <;> simp [h]
  simp [Goodreads.GET, hc]

/-- Witness for C10 with every credential absent. -/
theorem goodreads_missing_credentials_witness :
    (truthyStr (none : Option String) = false ∨ truthyStr (none : Option String) = false ∨
      truthyStr (none : Option String) = false) ∧
    ((Goodreads.GET none none none (.networkError "unused")).requests = [] ∧
     (Goodreads.GET none none none (.networkError "unused")).response.status = 200 ∧
     (Goodreads.GET none none none (.networkError "unused")).response.body.error = true ∧
     (Goodreads.GET none none none (.networkError "unused")).response.body.book = none) :=
  ⟨Or.inl rfl, goodreads_missing_credentials none none none _ (Or.inl rfl)⟩

end Dashboard
